import Mathlib

/-!
Shallow embedding of the tool-augmented query orchestrator of the RAG
chatbot backend (src/backend/llm_provider.py and src/backend/ai_generator.py).

Variant A (native tool calling): AnthropicProvider.generate_response and
AIGenerator.generate_response, which are line-for-line the same protocol and
differ only in the system-prompt text; both are instances of
variantAGenerate below.

Variant B (emulated tool calling): OllamaProvider.generate_response and
LocalAIProvider.generate_response, textually identical except for the
connection-error string; both are instances of variantBGenerate below,
sharing the classifier should_search_courses and the extractor
extract_search_parameters, whose bodies are duplicated verbatim in the two
Python classes.

The language-model backend is modelled as a function from the call index
(0 for the first call of one generate_response invocation, 1 for the
follow-up) to either a response or a raised exception. A tool manager is a
function from tool name and keyword arguments to either a result string or
a raised exception. Each generate_response returns, besides the text, the
ordered list of model requests issued and the ordered list of tool
dispatches performed, so that call counts, request contents and dispatch
order are observable.
-/

/-- A Python value passed as a keyword argument to a tool. -/
inductive PyVal where
  | str (s : String)
  | int (n : Nat)
deriving Repr, DecidableEq

/-- Keyword arguments of a tool call, in insertion order, modelling a
Python dict. Absence of a key is absence from the list. -/
abbrev Kwargs := List (String × PyVal)

/-- Exceptions a backend call or a tool call can raise: the anthropic SDK
classes AuthenticationError, RateLimitError, APIError, and any other
Python exception with its message. -/
inductive PyExc where
  | auth
  | rateLimit
  | api (msg : String)
  | other (msg : String)
deriving Repr, DecidableEq

/-- str(e) of an exception. -/
def PyExc.message : PyExc → String
  | .auth => "authentication error"
  | .rateLimit => "rate limit error"
  | .api m => m
  | .other m => m

/-- A tool manager: execute_tool(name, **kwargs) returning text or raising. -/
abbrev ToolManager := String → Kwargs → Except PyExc String

/-- A tool manager built from a function that never raises, as the Tool
Registry guarantees for dispatch. -/
def okTM (f : String → Kwargs → String) : ToolManager :=
  fun name input => .ok (f name input)

/-- Exact prefix test on character lists. -/
def listPrefixEq : List Char → List Char → Bool
  | [], _ => true
  | _ :: _, [] => false
  | a :: w, b :: l => a = b && listPrefixEq w l

/-- Substring occurrence on character lists. -/
def containsAux (w : List Char) : List Char → Bool
  | [] => w.isEmpty
  | b :: l => listPrefixEq w (b :: l) || containsAux w l

/-- Python substring test: sub in s. -/
def strContains (s sub : String) : Bool := containsAux sub.toList s.toList

/-- Python str.lower restricted to ASCII, which is all the code compares. -/
def pyLower (s : String) : String := String.mk (s.toList.map Char.toLower)

/-- A content block of an Anthropic response: a text block or a tool-use
block carrying id, tool name and input dict. -/
inductive ContentBlock where
  | text (s : String)
  | toolUse (id name : String) (input : Kwargs)
deriving Repr, DecidableEq

/-- An Anthropic response: stop_reason and content blocks. -/
structure AnthropicResponse where
  stop_reason : String
  content : List ContentBlock
deriving Repr, DecidableEq

/-- One tool_result entry of the follow-up user message. -/
structure ToolResultBlock where
  tool_use_id : String
  content : String
deriving Repr, DecidableEq

/-- The content of one message of the transcript. -/
inductive MessageContent where
  | text (s : String)
  | blocks (bs : List ContentBlock)
  | toolResults (rs : List ToolResultBlock)
deriving Repr, DecidableEq

/-- One message of the transcript: role and content. -/
structure Message where
  role : String
  content : MessageContent
deriving Repr, DecidableEq

/-- A tool schema handed to the backend; its contents are never inspected
by the orchestrator, only forwarded. -/
abbrev ToolDef := String

/-- One messages.create request of Variant A: messages, system text, and
the optional tools and tool_choice entries of api_params. -/
structure AnthropicRequest where
  messages : List Message
  system : String
  tools : Option (List ToolDef)
  tool_choice : Option String
deriving Repr, DecidableEq

/-- A Variant A backend: outcome of the n-th messages.create call of one
generate_response invocation. -/
abbrev BackendA := Nat → Except PyExc AnthropicResponse

/-- What one Variant A generate_response invocation did: the returned
text, the model requests issued in order, and the tool dispatches
performed in order. -/
structure GenResult where
  text : String
  requests : List AnthropicRequest
  dispatches : List (String × Kwargs)
deriving Repr

/-- str(e) of the AttributeError raised by reading .text off a tool-use
block. -/
def toolUseAttrError : String :=
  "\x27ToolUseBlock\x27 object has no attribute \x27text\x27"

/-- response.content[0].text: IndexError on an empty list, AttributeError
on a tool-use block, the text otherwise. -/
def getText0 : List ContentBlock → Except String String
  | [] => .error "list index out of range"
  | .text s :: _ => .ok s
  | .toolUse _ _ _ :: _ => .error toolUseAttrError

/-- The except chain shared by generate_response and
_handle_tool_execution in both Variant A classes: AuthenticationError,
RateLimitError, APIError (with the credit-balance special case), then any
Exception. -/
def anthropicErrorString : PyExc → String
  | .auth => "Error: Invalid Anthropic API key. Please check your API key configuration."
  | .rateLimit => "Error: API rate limit exceeded. Please try again in a moment."
  | .api msg =>
      if strContains (pyLower msg) "credit balance" then
        "Error: Insufficient Anthropic API credits. Please add credits to your Anthropic account to continue using the service."
      else "Error: API request failed - " ++ msg
  | .other msg => "Error: An unexpected error occurred - " ++ msg

/-- The loop over initial_response.content of _handle_tool_execution:
dispatch each tool_use block through the tool manager in order, collecting
tool_result entries; also records the dispatches made (a raised dispatch
aborts the loop, after having been attempted). -/
def runTools (tm : ToolManager) :
    List ContentBlock → Except PyExc (List ToolResultBlock) × List (String × Kwargs)
  | [] => (.ok [], [])
  | .text _ :: rest => runTools tm rest
  | .toolUse id name input :: rest =>
    match tm name input with
    | .error e => (.error e, [(name, input)])
    | .ok r =>
      let (res, ds) := runTools tm rest
      (res.map (fun rs => ⟨id, r⟩ :: rs), (name, input) :: ds)

/-- The tool_use blocks of a content list, in order: (id, name, input). -/
def toolUseBlocks : List ContentBlock → List (String × String × Kwargs)
  | [] => []
  | .text _ :: rest => toolUseBlocks rest
  | .toolUse id name input :: rest => (id, name, input) :: toolUseBlocks rest

/-- _handle_tool_execution of AnthropicProvider and AIGenerator: copy the
base messages, append the assistant tool-request message, run the tools,
append all tool results as one user message when any exist, then issue the
follow-up call (call index 1) without tools, returning its first text
block, with the same except chain as generate_response around the
follow-up call only. A tool dispatch that raises escapes to the caller. -/
def handleToolExecution (backend : BackendA) (tm : ToolManager)
    (initial : AnthropicResponse) (base : AnthropicRequest) :
    Except PyExc (String × AnthropicRequest) × List (String × Kwargs) :=
  let messages := base.messages ++ [⟨"assistant", .blocks initial.content⟩]
  match runTools tm initial.content with
  | (.error e, ds) => (.error e, ds)
  | (.ok tool_results, ds) =>
    let messages :=
      if tool_results.isEmpty then messages
      else messages ++ [⟨"user", .toolResults tool_results⟩]
    let finalReq : AnthropicRequest := ⟨messages, base.system, none, none⟩
    match backend 1 with
    | .error e => (.ok (anthropicErrorString e, finalReq), ds)
    | .ok finalResponse =>
      match getText0 finalResponse.content with
      | .ok t => (.ok (t, finalReq), ds)
      | .error m => (.ok (anthropicErrorString (.other m), finalReq), ds)

/-- generate_response of Variant A, parametric in the system-prompt text
(the only difference between AnthropicProvider and AIGenerator): build
system content, build api_params with tools and tool_choice auto when
tools is truthy, issue the first call; on stop_reason tool_use with a tool
manager present, run _handle_tool_execution; otherwise return
response.content[0].text; every raised exception is converted to text by
the except chain. -/
def variantAGenerate (systemPrompt : String) (backend : BackendA)
    (query : String) (conversation_history : Option String)
    (tools : List ToolDef) (tool_manager : Option ToolManager) : GenResult :=
  let system_content :=
    match conversation_history with
    | some h => systemPrompt ++ "\n\nPrevious conversation:\n" ++ h
    | none => systemPrompt
  let api_params : AnthropicRequest :=
    { messages := [⟨"user", .text query⟩],
      system := system_content,
      tools := if tools.isEmpty then none else some tools,
      tool_choice := if tools.isEmpty then none else some "auto" }
  match backend 0 with
  | .error e => ⟨anthropicErrorString e, [api_params], []⟩
  | .ok response =>
    match response.stop_reason == "tool_use", tool_manager with
    | true, some tm =>
      match handleToolExecution backend tm response api_params with
      | (.ok (t, finalReq), ds) => ⟨t, [api_params, finalReq], ds⟩
      | (.error e, ds) => ⟨anthropicErrorString e, [api_params], ds⟩
    | _, _ =>
      match getText0 response.content with
      | .ok t => ⟨t, [api_params], []⟩
      | .error m => ⟨anthropicErrorString (.other m), [api_params], []⟩

/-- The system prompt of AnthropicProvider.generate_response. -/
def anthropicSystemPrompt : String :=
  " You are an AI assistant specialized in course materials and educational content with access to a comprehensive search tool for course information.\n\nSearch Tool Usage:\n- Use the search tool **only** for questions about specific course content or detailed educational materials\n- **One search per query maximum**\n- Synthesize search results into accurate, fact-based responses\n- If search yields no results, state this clearly without offering alternatives\n\nResponse Protocol:\n- **General knowledge questions**: Answer using existing knowledge without searching\n- **Course-specific questions**: Search first, then answer\n- **No meta-commentary**:\n - Provide direct answers only — no reasoning process, search explanations, or question-type analysis\n - Do not mention \"based on the search results\"\n\n\nAll responses must be:\n1. **Brief, Concise and focused** - Get to the point quickly\n2. **Educational** - Maintain instructional value\n3. **Clear** - Use accessible language\n4. **Example-supported** - Include relevant examples when they aid understanding\nProvide only the direct answer to what was asked.\n"

/-- AnthropicProvider.generate_response of src/backend/llm_provider.py. -/
def AnthropicProvider.generate_response : BackendA → String → Option String →
    List ToolDef → Option ToolManager → GenResult :=
  variantAGenerate anthropicSystemPrompt

/-- The SYSTEM_PROMPT of AIGenerator. -/
def AIGenerator.SYSTEM_PROMPT : String :=
  " You are an AI assistant specialized in course materials and educational content with access to comprehensive search tools for course information.\n\nAvailable Tools:\n1. **Course Content Search**: For questions about specific course content or detailed educational materials\n2. **Course Outline**: For questions about course structure, lessons, or course overview\n\nTool Usage Guidelines:\n- **Course outline queries**: Use the course outline tool for questions about:\n  - Course structure or lesson overview\n  - \"What lessons are in [course]?\"\n  - \"Show me the outline of [course]\"\n  - Course title, instructor, or course link information\n- **Course content queries**: Use the content search tool for:\n  - Specific content within lessons\n  - Detailed educational materials\n  - Questions about concepts, examples, or explanations\n- **One tool call per query maximum**\n- Synthesize tool results into accurate, fact-based responses\n- If tool yields no results, state this clearly without offering alternatives\n\nResponse Protocol:\n- **General knowledge questions**: Answer using existing knowledge without tool usage\n- **Course-specific questions**: Use appropriate tool first, then answer\n- **No meta-commentary**:\n - Provide direct answers only â€” no reasoning process, tool explanations, or question-type analysis\n - Do not mention \"based on the search results\" or \"using the tool\"\n\nAll responses must be:\n1. **Brief, Concise and focused** - Get to the point quickly\n2. **Educational** - Maintain instructional value\n3. **Clear** - Use accessible language\n4. **Example-supported** - Include relevant examples when they aid understanding\nProvide only the direct answer to what was asked.\n"

/-- AIGenerator.generate_response of src/backend/ai_generator.py, the same
protocol with its own prompt. -/
def AIGenerator.generate_response : BackendA → String → Option String →
    List ToolDef → Option ToolManager → GenResult :=
  variantAGenerate AIGenerator.SYSTEM_PROMPT

/-- Python word character, the \x5cw class over ASCII: alphanumeric or
underscore. -/
def isWordChar (c : Char) : Bool := c.isAlphanum || c = '_'

/-- Python whitespace, the \x5cs class over ASCII. -/
def pyIsSpace (c : Char) : Bool :=
  c = ' ' || c = '\t' || c = '\n' || c = '\r' || c = '\x0b' || c = '\x0c'

/-- Case-insensitive prefix match: the remainder after matching the first
list at the head of the second, compared through Char.toLower as
re.IGNORECASE does over ASCII. -/
def ciPrefixRest : List Char → List Char → Option (List Char)
  | [], l => some l
  | _ :: _, [] => none
  | a :: w, b :: l => if a.toLower = b.toLower then ciPrefixRest w l else none

/-- A word boundary after a match: end of input or a non-word character. -/
def noWordCharAhead : List Char → Bool
  | [] => true
  | c :: _ => !isWordChar c

/-- Leftmost search of a matcher that begins at a word boundary, walking
the input while tracking whether the previous character was a word
character. -/
def searchWB {α : Type} (m : List Char → Option α) :
    List Char → Bool → Option α
  | [], _ => none
  | c :: rest, prevWord =>
    match (if !prevWord then m (c :: rest) else none) with
    | some r => some r
    | none => searchWB m rest (isWordChar c)

/-- Whether s has a case-insensitive whole-word occurrence of w, the
semantics re.search of a word wrapped in boundary anchors has with
re.IGNORECASE. -/
def containsWordCI (s w : String) : Bool :=
  (searchWB (fun l =>
      match ciPrefixRest w.toList l with
      | some tail => if noWordCharAhead tail then some () else none
      | none => none)
    s.toList false).isSome

/-- The strong always-retrieve trigger words of _should_search_courses,
each searched as a case-insensitive whole word. -/
def strongPatterns : List String :=
  ["course", "lesson", "tutorial", "module", "MCP", "Claude", "Anthropic"]

/-- The educational question phrases of _should_search_courses, searched
as plain substrings of the lowercased query. -/
def educationalPatterns : List String :=
  ["how to", "what is", "what are", "explain", "learn", "teach",
   "show me", "tell me about", "describe"]

/-- The technical keywords of _should_search_courses, searched as plain
substrings of the lowercased query. -/
def techKeywords : List String :=
  ["api", "programming", "code", "software", "development", "python",
   "javascript", "database", "ml", "ai"]

/-- _should_search_courses, duplicated verbatim in OllamaProvider and
LocalAIProvider: any strong whole-word trigger retrieves; otherwise retrieve
only when an educational phrase and a technical keyword both occur in the
lowercased query. -/
def should_search_courses (query : String) : Bool :=
  if strongPatterns.any (fun w => containsWordCI query w) then true
  else
    let query_lower := pyLower query
    let has_educational :=
      educationalPatterns.any (fun p => strContains query_lower p)
    let has_tech := techKeywords.any (fun k => strContains query_lower k)
    has_educational && has_tech

/-- skip one-or-more whitespace characters, as \x5cs+ followed by a
non-space requirement behaves. -/
def skipSpaces1 : List Char → Option (List Char)
  | [] => none
  | c :: rest =>
    if pyIsSpace c then some (rest.dropWhile pyIsSpace) else none

/-- The numeric value of a digit run. -/
def digitsToNat (ds : List Char) : Nat :=
  ds.foldl (fun a c => a * 10 + (c.toNat - '0'.toNat)) 0

/-- Read a maximal nonempty digit run, the capture of \x5cd+. -/
def readDigits (l : List Char) : Option (Nat × List Char) :=
  let ds := l.takeWhile Char.isDigit
  if ds.isEmpty then none
  else some (digitsToNat ds, l.dropWhile Char.isDigit)

/-- Match lesson, whitespace, digits, word boundary at the head of the
input, the tail every lesson pattern shares. -/
def matchLessonTail (l : List Char) : Option Nat := do
  let r ← ciPrefixRest "lesson".toList l
  let r ← skipSpaces1 r
  let (n, r2) ← readDigits r
  if noWordCharAhead r2 then some n else none

/-- Match an introducer word, whitespace, then the lesson tail, for the
second and third lesson patterns. -/
def matchPrefLessonTail (pre : String) (l : List Char) : Option Nat := do
  let r ← ciPrefixRest pre.toList l
  let r ← skipSpaces1 r
  matchLessonTail r

/-- The lesson_number extraction of _extract_search_parameters: the three
patterns tried in order, first match wins, each searched leftmost at a
word boundary. -/
def findLessonNumber (query : String) : Option Nat :=
  [matchLessonTail, matchPrefLessonTail "in", matchPrefLessonTail "of"].findSome?
    (fun m => searchWB m query.toList false)

/-- Whether the remainder after a candidate capture completes the course
pattern: one-or-more whitespace then course, case-insensitively. -/
def tailCourseCheck (l : List Char) : Bool :=
  let rest := l.dropWhile pyIsSpace
  !(l.takeWhile pyIsSpace).isEmpty && (ciPrefixRest "course".toList rest).isSome

/-- The lazy capture of the course patterns: the shortest nonempty run of
non-question-mark characters whose remainder passes tailCourseCheck; acc
holds the reversed capture so far. -/
def lazyCapture (acc : List Char) : List Char → Option (List Char)
  | [] => none
  | c :: rest =>
    if c = '?' then none
    else if tailCourseCheck rest then some (c :: acc).reverse
    else lazyCapture (c :: acc) rest

/-- The optional group holding the article: try matching the, one-or-more
whitespace backtracking from the greedy count down, then the lazy
capture. -/
def theBranchTry (rest : List Char) : Nat → Option (List Char)
  | 0 => none
  | j + 1 =>
    match lazyCapture [] (rest.drop (j + 1)) with
    | some cap => some cap
    | none => theBranchTry rest j

/-- The article branch of the course pattern at a position just after its
leading whitespace. -/
def theBranch (l : List Char) : Option (List Char) :=
  match ciPrefixRest "the".toList l with
  | none => none
  | some rest => theBranchTry rest (rest.takeWhile pyIsSpace).length

/-- After the introducer word: with the article if that succeeds, without
it otherwise, as a greedy optional group backtracks. -/
def courseAfterSpaces (l : List Char) : Option (List Char) :=
  match theBranch l with
  | some cap => some cap
  | none => lazyCapture [] l

/-- The whitespace after the introducer word, greedy with backtracking
from the full run down to one character. -/
def outerSpacesTry (rest : List Char) : Nat → Option (List Char)
  | 0 => none
  | k + 1 =>
    match courseAfterSpaces (rest.drop (k + 1)) with
    | some cap => some cap
    | none => outerSpacesTry rest k

/-- One course pattern at a position: the introducer word, whitespace, an
optional article, then the lazy capture up to whitespace and course. -/
def matchCourseTail (w : String) (l : List Char) : Option (List Char) :=
  match ciPrefixRest w.toList l with
  | none => none
  | some rest => outerSpacesTry rest (rest.takeWhile pyIsSpace).length

/-- Leftmost search of a matcher at any position, no boundary required,
as the course patterns are searched. -/
def searchAnywhere {α : Type} (m : List Char → Option α) :
    List Char → Option α
  | [] => none
  | c :: rest =>
    match m (c :: rest) with
    | some r => some r
    | none => searchAnywhere m rest

/-- The introducer words of the four course patterns, in source order. -/
def courseIntroducers : List String := ["in", "from", "about", "of"]

/-- Python str.strip over ASCII whitespace, on character lists. -/
def pyStripL (l : List Char) : List Char :=
  ((l.dropWhile pyIsSpace).reverse.dropWhile pyIsSpace).reverse

/-- The copula words the course-name cleanup removes from the tail. -/
def copulas : List String := ["is", "are", "was", "were"]

/-- The cleanup substitution on a stripped capture: remove one trailing
whitespace-preceded copula word, case-insensitively, when the capture ends
in one. -/
def dropTrailingCopula (l : List Char) : List Char :=
  let r := l.reverse
  match copulas.findSome? (fun w =>
      match ciPrefixRest w.toList.reverse r with
      | some rest =>
        match rest with
        | c :: _ => if pyIsSpace c then some (rest.dropWhile pyIsSpace) else none
        | [] => none
      | none => none) with
  | some rest => rest.reverse
  | none => l

/-- Match a case-insensitive whole word at the head of the input,
returning the consumed length. -/
def wordAt (w : String) (l : List Char) : Option Nat :=
  match ciPrefixRest w.toList l with
  | some r => if noWordCharAhead r then some (l.length - r.length) else none
  | none => none

/-- Match Introduction, whitespace, to, whitespace, MCP, word boundary, at
the head of the input, returning the consumed length. -/
def introToMcpAt (l : List Char) : Option Nat := do
  let r ← ciPrefixRest "Introduction".toList l
  let r ← skipSpaces1 r
  let r ← ciPrefixRest "to".toList r
  let r ← skipSpaces1 r
  let r ← ciPrefixRest "MCP".toList r
  if noWordCharAhead r then some (l.length - r.length) else none

/-- Match Building, whitespace, with, whitespace, then a nonempty word
run, at the head of the input, returning the consumed length. -/
def buildingWithAt (l : List Char) : Option Nat := do
  let r ← ciPrefixRest "Building".toList l
  let r ← skipSpaces1 r
  let r ← ciPrefixRest "with".toList r
  let r ← skipSpaces1 r
  let w := r.takeWhile isWordChar
  if w.isEmpty then none else some (l.length - r.length + w.length)

/-- Leftmost word-boundary search returning the matched text itself, as
group(0) of the identifier patterns is what the extractor stores. -/
def searchWBText (m : List Char → Option Nat) : List Char → Bool → Option (List Char)
  | [], _ => none
  | c :: rest, prevWord =>
    match (if !prevWord then m (c :: rest) else none) with
    | some n => some ((c :: rest).take n)
    | none => searchWBText m rest (isWordChar c)

/-- The known course-identifier fallback of the extractor: the five
patterns in source order, first match wins, group(0) returned. -/
def courseIdentifierSearch (query : String) : Option String :=
  ([wordAt "MCP", introToMcpAt, wordAt "Anthropic", wordAt "Claude",
    buildingWithAt].findSome?
      (fun m => searchWBText m query.toList false)).map String.mk

/-- The course-name phrase extraction: the four course patterns in source
order, first match wins, the capture stripped and cleaned of a trailing
copula. -/
def courseNameFromPatterns (query : String) : Option String :=
  (courseIntroducers.findSome?
      (fun w => searchAnywhere (matchCourseTail w) query.toList)).map
    (fun cap => String.mk (dropTrailingCopula (pyStripL cap)))

/-- _extract_search_parameters, duplicated verbatim in OllamaProvider and
LocalAIProvider: always the query, then lesson_number when a lesson
pattern matches, then course_name from the course patterns or, failing
those, from the known identifiers; an unmatched key is absent. -/
def extract_search_parameters (query : String) : Kwargs :=
  let params : Kwargs := [("query", .str query)]
  let params :=
    match findLessonNumber query with
    | some n => params ++ [("lesson_number", .int n)]
    | none => params
  let course_name :=
    match courseNameFromPatterns query with
    | some c => some c
    | none => courseIdentifierSearch query
  match course_name with
  | some c => params ++ [("course_name", .str c)]
  | none => params

/-- An OpenAI-compatible chat response: the content strings of its
choices. -/
structure ChatResponse where
  choices : List String
deriving Repr, DecidableEq

/-- A Variant B backend: outcome of the n-th chat.completions.create
call; Variant B only ever consults index 0. -/
abbrev BackendB := Nat → Except PyExc ChatResponse

/-- One chat.completions.create request of Variant B. -/
structure ChatRequest where
  model : String
  messages : List Message
  temperature : Nat
  max_tokens : Nat
deriving Repr, DecidableEq

/-- What one Variant B generate_response invocation did: the returned
text, the model requests issued, and the tool dispatches performed. -/
structure GenResultB where
  text : String
  requests : List ChatRequest
  dispatches : List (String × Kwargs)
deriving Repr

/-- The Variant B system prompt around its search_context interpolation,
shared verbatim by OllamaProvider and LocalAIProvider. -/
def variantBSystemPrompt (search_context : String) : String :=
  " You are an AI assistant specialized in course materials and educational content.\n\nSearch Tool Usage:\n- When users ask about specific course content, programming concepts, or technical topics that might be covered in educational materials, search the course database first\n- Synthesize search results into accurate, fact-based responses\n- If search yields no results, provide general knowledge answers\n\nResponse Protocol:\n- **Course-specific questions**: Use search results when available, supplement with general knowledge\n- **General knowledge questions**: Answer using existing knowledge\n- **No meta-commentary**: Provide direct answers without mentioning search process\n\nAll responses must be:\n1. **Brief, Concise and focused** - Get to the point quickly\n2. **Educational** - Maintain instructional value\n3. **Clear** - Use accessible language\n4. **Example-supported** - Include relevant examples when they aid understanding\nProvide only the direct answer to what was asked." ++ search_context ++ "\n"

/-- generate_response of Variant B, parametric in the connection-error
text (the only difference between OllamaProvider and LocalAIProvider):
classify, maybe dispatch the search tool with whatever the extractor
produced, fold the outcome into the system prompt, then issue exactly one
chat call and return its first choice, or the connection-error text if the
call raises or has no choices. The tools argument is accepted and never
read, as in the source. -/
def variantBGenerate (connectErr : String → String) (model : String)
    (backend : BackendB) (query : String)
    (conversation_history : Option String)
    (tools : List ToolDef) (tool_manager : Option ToolManager) : GenResultB :=
  let should_search := should_search_courses query
  let (search_context, dispatches) :=
    match tool_manager, should_search with
    | some tm, true =>
      let search_params := extract_search_parameters query
      let ds := [("search_course_content", search_params)]
      match tm "search_course_content" search_params with
      | .ok search_results =>
        if search_results ≠ "" ∧ String.mk (pyStripL search_results.toList) ≠ "" then
          ("\n\nRelevant course content found:\n" ++ search_results, ds)
        else
          ("\n\nNo relevant course content found for this query.", ds)
      | .error e => ("\n\nError searching course content: " ++ e.message, ds)
    | _, _ => ("", [])
  let system_prompt := variantBSystemPrompt search_context
  let messages := [Message.mk "system" (.text system_prompt)]
  let messages := messages ++
    (match conversation_history with
     | some h => [Message.mk "assistant" (.text ("Previous conversation:\n" ++ h))]
     | none => [])
  let messages := messages ++ [Message.mk "user" (.text query)]
  let req : ChatRequest := ⟨model, messages, 0, 800⟩
  match backend 0 with
  | .error e => ⟨connectErr e.message, [req], dispatches⟩
  | .ok resp =>
    match resp.choices with
    | content :: _ => ⟨content, [req], dispatches⟩
    | [] => ⟨connectErr "list index out of range", [req], dispatches⟩

/-- The connection-error text of OllamaProvider. -/
def ollamaConnectErr (model : String) (msg : String) : String :=
  "Error: Failed to connect to Ollama - " ++ msg ++
    ". Make sure Ollama is running and the model \x27" ++ model ++ "\x27 is installed."

/-- OllamaProvider.generate_response of src/backend/llm_provider.py. -/
def OllamaProvider.generate_response (model : String) :
    BackendB → String → Option String → List ToolDef → Option ToolManager →
      GenResultB :=
  variantBGenerate (ollamaConnectErr model) model

/-- The connection-error text of LocalAIProvider. -/
def localAIConnectErr (base_url : String) (msg : String) : String :=
  "Error: Failed to connect to LocalAI - " ++ msg ++
    ". Make sure LocalAI is running at " ++ base_url ++ "."

/-- LocalAIProvider.generate_response of src/backend/llm_provider.py,
textually the same protocol with its own error text. -/
def LocalAIProvider.generate_response (base_url : String) (model : String) :
    BackendB → String → Option String → List ToolDef → Option ToolManager →
      GenResultB :=
  variantBGenerate (localAIConnectErr base_url) model

/-- The system content a Variant A invocation sends: prompt plus optional
prior conversation. -/
def systemContentOf (sp : String) (hist : Option String) : String :=
  match hist with
  | some h => sp ++ "\n\nPrevious conversation:\n" ++ h
  | none => sp

/-- The first request a Variant A invocation issues. -/
def firstRequestA (sp q : String) (hist : Option String)
    (tools : List ToolDef) : AnthropicRequest :=
  { messages := [⟨"user", .text q⟩],
    system := systemContentOf sp hist,
    tools := if tools.isEmpty then none else some tools,
    tool_choice := if tools.isEmpty then none else some "auto" }

/-- The (tool_use_id, result) pairs a tool round produces, in request
order, when the tool manager is okTM f. -/
def toolResultsOf (f : String → Kwargs → String)
    (content : List ContentBlock) : List ToolResultBlock :=
  (toolUseBlocks content).map fun x => ⟨x.1, f x.2.1 x.2.2⟩

/-- The (name, input) dispatches a tool round performs, in request order. -/
def dispatchesOf (content : List ContentBlock) : List (String × Kwargs) :=
  (toolUseBlocks content).map fun x => (x.2.1, x.2.2)

/-- The follow-up request a Variant A tool round issues: the accumulated
transcript, the same system text, and no tools. -/
def secondRequestA (sp q : String) (hist : Option String)
    (f : String → Kwargs → String) (content : List ContentBlock) :
    AnthropicRequest :=
  ⟨([⟨"user", .text q⟩, ⟨"assistant", .blocks content⟩] ++
      (if (toolResultsOf f content).isEmpty then []
       else [⟨"user", .toolResults (toolResultsOf f content)⟩])),
   systemContentOf sp hist, none, none⟩

/-- The text Variant A extracts from one call outcome: the first text
block on success, the except-chain text otherwise. -/
def firstChoiceText : Except PyExc AnthropicResponse → String
  | .error e => anthropicErrorString e
  | .ok r =>
    match getText0 r.content with
    | .ok t => t
    | .error m => anthropicErrorString (.other m)

theorem runTools_okTM (f : String → Kwargs → String) :
    ∀ bs : List ContentBlock,
      runTools (okTM f) bs = (.ok (toolResultsOf f bs), dispatchesOf bs)
  | [] => rfl
  | .text s :: rest => by
      simpa [runTools, toolResultsOf, dispatchesOf, toolUseBlocks]
        using runTools_okTM f rest
  | .toolUse id name input :: rest => by
      simp [runTools, toolResultsOf, dispatchesOf, toolUseBlocks, okTM,
        runTools_okTM f rest, Except.map]

/-- A first-call exception yields the except-chain text, one request, no
dispatch. -/
theorem genA_first_error (sp : String) (backend : BackendA) (q : String)
    (hist : Option String) (tools : List ToolDef) (tmo : Option ToolManager)
    (e : PyExc) (h0 : backend 0 = .error e) :
    variantAGenerate sp backend q hist tools tmo =
      ⟨anthropicErrorString e, [firstRequestA sp q hist tools], []⟩ := by
  simp [variantAGenerate, h0, firstRequestA, systemContentOf]

/-- Without a tool round (stop_reason not tool_use, or no tool manager),
Variant A returns the first text of the first response, one request, no
dispatch. -/
theorem genA_no_toolround (sp : String) (backend : BackendA) (q : String)
    (hist : Option String) (tools : List ToolDef) (tmo : Option ToolManager)
    (r : AnthropicResponse) (h0 : backend 0 = .ok r)
    (h : (r.stop_reason == "tool_use") = false ∨ tmo = none) :
    variantAGenerate sp backend q hist tools tmo =
      ⟨firstChoiceText (.ok r), [firstRequestA sp q hist tools], []⟩ := by
  rcases h with h | h
  · cases tmo <;>
      · simp only [variantAGenerate, h0, h, firstChoiceText]
        cases hg : getText0 r.content <;>
          simp [hg, firstRequestA, systemContentOf]
  · subst h
    cases hb : r.stop_reason == "tool_use" <;>
      · simp only [variantAGenerate, h0, hb, firstChoiceText]
        cases hg : getText0 r.content <;>
          simp [hg, firstRequestA, systemContentOf]

/-- With a tool round and a non-raising tool manager, Variant A issues
exactly the two requests, performs the dispatches of the tool_use blocks
in order, and returns the text of the follow-up outcome. -/
theorem genA_toolround (sp : String) (backend : BackendA) (q : String)
    (hist : Option String) (tools : List ToolDef)
    (f : String → Kwargs → String) (r : AnthropicResponse)
    (h0 : backend 0 = .ok r) (hsr : (r.stop_reason == "tool_use") = true) :
    variantAGenerate sp backend q hist tools (some (okTM f)) =
      ⟨firstChoiceText (backend 1),
       [firstRequestA sp q hist tools, secondRequestA sp q hist f r.content],
       dispatchesOf r.content⟩ := by
  simp only [variantAGenerate, h0, hsr, handleToolExecution,
    runTools_okTM f r.content]
  cases hb : backend 1 with
  | error e =>
    cases he : (toolResultsOf f r.content).isEmpty <;>
      simp [hb, he, firstChoiceText, firstRequestA, secondRequestA,
        systemContentOf]
  | ok r2 =>
    cases hg : getText0 r2.content <;>
      cases he : (toolResultsOf f r.content).isEmpty <;>
        simp [hb, hg, he, firstChoiceText, firstRequestA, secondRequestA,
          systemContentOf]

/-- The search context and dispatch list a Variant B invocation produces
before its single model call. -/
def contextDispatch (tmo : Option ToolManager) (q : String) :
    String × List (String × Kwargs) :=
  match tmo, should_search_courses q with
  | some tm, true =>
    let ps := extract_search_parameters q
    (match tm "search_course_content" ps with
     | .ok res =>
       if res ≠ "" ∧ String.mk (pyStripL res.toList) ≠ "" then
         "\n\nRelevant course content found:\n" ++ res
       else "\n\nNo relevant course content found for this query."
     | .error e => "\n\nError searching course content: " ++ e.message,
     [("search_course_content", ps)])
  | _, _ => ("", [])

/-- The one chat request a Variant B invocation issues. -/
def chatRequestOf (model sc q : String) (hist : Option String) : ChatRequest :=
  ⟨model,
   [Message.mk "system" (.text (variantBSystemPrompt sc))] ++
     (match hist with
      | some h => [Message.mk "assistant" (.text ("Previous conversation:\n" ++ h))]
      | none => []) ++
     [Message.mk "user" (.text q)],
   0, 800⟩

/-- The text Variant B extracts from its one call outcome: the first
choice on success, the connection-error text on a raised exception or an
empty choice list. -/
def chatText (connectErr : String → String) :
    Except PyExc ChatResponse → String
  | .error e => connectErr e.message
  | .ok resp =>
    match resp.choices with
    | content :: _ => content
    | [] => connectErr "list index out of range"

set_option maxRecDepth 16000 in
set_option maxHeartbeats 1000000 in
/-- Variant B always issues exactly the one request and returns the text
of its outcome, with the dispatches decided before the call. -/
theorem genB_eq (c : String → String) (m : String) (backend : BackendB)
    (q : String) (hist : Option String) (tools : List ToolDef)
    (tmo : Option ToolManager) :
    variantBGenerate c m backend q hist tools tmo =
      ⟨chatText c (backend 0),
       [chatRequestOf m (contextDispatch tmo q).1 q hist],
       (contextDispatch tmo q).2⟩ := by
  cases tmo with
  | none =>
    cases hs : should_search_courses q <;>
      · simp only [variantBGenerate, contextDispatch, hs]
        cases hb : backend 0 with
        | error e => rfl
        | ok resp => cases hc : resp.choices <;> simp [hc, chatText, chatRequestOf]
  | some tm =>
    cases hs : should_search_courses q with
    | false =>
      simp only [variantBGenerate, contextDispatch, hs]
      cases hb : backend 0 with
      | error e => rfl
      | ok resp => cases hc : resp.choices <;> simp [hc, chatText, chatRequestOf]
    | true =>
      simp only [variantBGenerate, contextDispatch, hs]
      cases ht : tm "search_course_content" (extract_search_parameters q) with
      | error e =>
        cases hb : backend 0 with
        | error e2 => rfl
        | ok resp => cases hc : resp.choices <;> simp [hc, chatText, chatRequestOf]
      | ok res =>
        dsimp only
        split_ifs <;>
          · cases hb : backend 0 with
            | error e2 => simp [chatText, chatRequestOf]
            | ok resp => cases hc : resp.choices <;> simp [hc, chatText, chatRequestOf]

/-- Claim C1: with a first response that does not request tool use,
Variant A issues exactly one model call and returns its text; with a
first response whose stop_reason is tool_use and a tool manager supplied,
it issues exactly two model calls, whatever the number of tool_use blocks
in the first response. -/
theorem variantA_model_call_counts (sp : String) (backend : BackendA)
    (q : String) (hist : Option String) (tools : List ToolDef)
    (f : String → Kwargs → String) (r : AnthropicResponse)
    (h0 : backend 0 = .ok r) :
    ((r.stop_reason == "tool_use") = false →
      (∀ tmo, (variantAGenerate sp backend q hist tools tmo).requests.length = 1) ∧
      (∀ t rest, r.content = ContentBlock.text t :: rest →
        (variantAGenerate sp backend q hist tools (some (okTM f))).text = t)) ∧
    ((r.stop_reason == "tool_use") = true →
      (variantAGenerate sp backend q hist tools
          (some (okTM f))).requests.length = 2) := by
  constructor
  · intro hsr
    constructor
    · intro tmo
      rw [genA_no_toolround sp backend q hist tools tmo r h0 (Or.inl hsr)]
      rfl
    · intro t rest hc
      rw [genA_no_toolround sp backend q hist tools _ r h0 (Or.inl hsr)]
      simp [firstChoiceText, hc, getText0]
  · intro hsr
    rw [genA_toolround sp backend q hist tools f r h0 hsr]
    rfl

/-- A backend whose first response requests one tool call and whose
follow-up is plain text. -/
def toolRoundBackend : BackendA := fun n =>
  if n = 0 then
    .ok ⟨"tool_use",
      [.toolUse "call-1" "search_course_content" [("query", .str "q")]]⟩
  else .ok ⟨"end_turn", [.text "final answer"]⟩

theorem variantA_model_call_counts_witness :
    (variantAGenerate anthropicSystemPrompt toolRoundBackend "q" none
        ["search_course_content"]
        (some (okTM fun _ _ => "result"))).requests.length = 2 :=
  (variantA_model_call_counts anthropicSystemPrompt toolRoundBackend "q" none
      ["search_course_content"] (fun _ _ => "result")
      ⟨"tool_use",
        [.toolUse "call-1" "search_course_content" [("query", .str "q")]]⟩
      rfl).2 rfl

/-- Claim C2: a raised backend exception never escapes generate_response:
the first-call outcome is folded into the fixed authentication, rate
limit, credit and generic error strings, the same mapping applying to a
follow-up call that raises after a tool round. -/
theorem variantA_exception_to_text (sp : String) (backend : BackendA)
    (q : String) (hist : Option String) (tools : List ToolDef)
    (tmo : Option ToolManager) (e : PyExc) (h : backend 0 = .error e) :
    (variantAGenerate sp backend q hist tools tmo).text =
      anthropicErrorString e ∧
    anthropicErrorString .auth =
      "Error: Invalid Anthropic API key. Please check your API key configuration." ∧
    anthropicErrorString .rateLimit =
      "Error: API rate limit exceeded. Please try again in a moment." ∧
    (∀ msg, strContains (pyLower msg) "credit balance" = true →
      anthropicErrorString (.api msg) =
        "Error: Insufficient Anthropic API credits. Please add credits to your Anthropic account to continue using the service.") ∧
    (∀ msg, anthropicErrorString (.other msg) =
      "Error: An unexpected error occurred - " ++ msg) ∧
    (∀ (backend2 : BackendA) (f : String → Kwargs → String)
        (r : AnthropicResponse) (e2 : PyExc), backend2 0 = .ok r →
      (r.stop_reason == "tool_use") = true → backend2 1 = .error e2 →
      (variantAGenerate sp backend2 q hist tools (some (okTM f))).text =
        anthropicErrorString e2) := by
  refine ⟨?_, rfl, rfl, ?_, ?_, ?_⟩
  · rw [genA_first_error sp backend q hist tools tmo e h]
  · intro msg hm
    simp [anthropicErrorString, hm]
  · intro msg
    rfl
  · intro backend2 f r e2 h0 hsr h1
    rw [genA_toolround sp backend2 q hist tools f r h0 hsr]
    simp [firstChoiceText, h1]

/-- A backend whose every call raises an authentication failure. -/
def authFailBackend : BackendA := fun _ => .error .auth

theorem variantA_exception_to_text_witness :
    (variantAGenerate anthropicSystemPrompt authFailBackend "q" none []
        none).text = anthropicErrorString .auth :=
  (variantA_exception_to_text anthropicSystemPrompt authFailBackend "q" none []
      none .auth rfl).1

/-- Claim C3: in a tool round the follow-up request carries no tool
definitions and no tool_choice, and the text of the follow-up response is
returned as the final answer whatever its stop_reason, so the exchange
ends after the second call even when that response again signals
tool_use. -/
theorem variantA_followup_without_tools (sp : String) (backend : BackendA)
    (q : String) (hist : Option String) (tools : List ToolDef)
    (f : String → Kwargs → String) (r : AnthropicResponse)
    (h0 : backend 0 = .ok r) (hsr : (r.stop_reason == "tool_use") = true) :
    (variantAGenerate sp backend q hist tools (some (okTM f))).requests =
      [firstRequestA sp q hist tools, secondRequestA sp q hist f r.content] ∧
    (secondRequestA sp q hist f r.content).tools = none ∧
    (secondRequestA sp q hist f r.content).tool_choice = none ∧
    (∀ r2 t rest, backend 1 = .ok r2 →
      r2.content = ContentBlock.text t :: rest →
      (variantAGenerate sp backend q hist tools (some (okTM f))).text = t) := by
  refine ⟨?_, rfl, rfl, ?_⟩
  · rw [genA_toolround sp backend q hist tools f r h0 hsr]
  · intro r2 t rest h1 hc
    rw [genA_toolround sp backend q hist tools f r h0 hsr]
    simp [firstChoiceText, h1, hc, getText0]

/-- A backend whose follow-up response again signals tool_use while
carrying a leading text block. -/
def chainingBackend : BackendA := fun n =>
  if n = 0 then
    .ok ⟨"tool_use",
      [.toolUse "c1" "get_course_outline" [("course_name", .str "MCP")]]⟩
  else
    .ok ⟨"tool_use",
      [.text "still the answer", .toolUse "c2" "search_course_content" []]⟩

theorem variantA_followup_without_tools_witness :
    (variantAGenerate anthropicSystemPrompt chainingBackend "q" none ["t"]
        (some (okTM fun _ _ => "out"))).text = "still the answer" :=
  (variantA_followup_without_tools anthropicSystemPrompt chainingBackend "q"
      none ["t"] (fun _ _ => "out")
      ⟨"tool_use",
        [.toolUse "c1" "get_course_outline" [("course_name", .str "MCP")]]⟩
      rfl rfl).2.2.2
    ⟨"tool_use",
      [.text "still the answer", .toolUse "c2" "search_course_content" []]⟩
    "still the answer"
    [.toolUse "c2" "search_course_content" []] rfl rfl

/-- Claim C6: the tool calls of a round are dispatched sequentially in
the order of the tool_use blocks of the first response, each producing a
(tool_use_id, result) pair in that same order, and all pairs travel in
one single follow-up user message appended after the tool-request
message, before the second model call. -/
theorem variantA_sequential_dispatch (sp : String) (backend : BackendA)
    (q : String) (hist : Option String) (tools : List ToolDef)
    (f : String → Kwargs → String) (r : AnthropicResponse)
    (h0 : backend 0 = .ok r) (hsr : (r.stop_reason == "tool_use") = true) :
    (variantAGenerate sp backend q hist tools (some (okTM f))).dispatches =
      (toolUseBlocks r.content).map (fun x => (x.2.1, x.2.2)) ∧
    ∃ followup,
      (variantAGenerate sp backend q hist tools (some (okTM f))).requests =
        [firstRequestA sp q hist tools, followup] ∧
      followup.messages =
        [⟨"user", .text q⟩, ⟨"assistant", .blocks r.content⟩] ++
          (if toolUseBlocks r.content = [] then []
           else [⟨"user", .toolResults ((toolUseBlocks r.content).map
              (fun x => ⟨x.1, f x.2.1 x.2.2⟩))⟩]) := by
  rw [genA_toolround sp backend q hist tools f r h0 hsr]
  refine ⟨rfl, secondRequestA sp q hist f r.content, rfl, ?_⟩
  cases h : toolUseBlocks r.content with
  | nil => simp [secondRequestA, toolResultsOf, h]
  | cons a l => simp [secondRequestA, toolResultsOf, h]

/-- A backend whose first response requests two tool calls. -/
def twoToolBackend : BackendA := fun n =>
  if n = 0 then
    .ok ⟨"tool_use",
      [.toolUse "c1" "search_course_content" [("query", .str "a")],
       .toolUse "c2" "get_course_outline" [("course_name", .str "MCP")]]⟩
  else .ok ⟨"end_turn", [.text "done"]⟩

theorem variantA_sequential_dispatch_witness :
    (variantAGenerate anthropicSystemPrompt twoToolBackend "q" none ["t"]
        (some (okTM fun name _ => name))).dispatches =
      [("search_course_content", [("query", PyVal.str "a")]),
       ("get_course_outline", [("course_name", PyVal.str "MCP")])] := by
  have h := (variantA_sequential_dispatch anthropicSystemPrompt twoToolBackend
      "q" none ["t"] (fun name _ => name)
      ⟨"tool_use",
        [.toolUse "c1" "search_course_content" [("query", .str "a")],
         .toolUse "c2" "get_course_outline" [("course_name", .str "MCP")]]⟩
      rfl rfl).1
  simpa [toolUseBlocks] using h

/-- Claim C9: a tool round happens only when the first response says
tool_use and a tool manager was supplied; with no tool manager nothing is
dispatched, only the one model call is issued, and the function still
returns a string, the read of .text off a leading tool-use block
surfacing as the generic unexpected-error text. -/
theorem variantA_dispatch_requires_manager (sp : String) (backend : BackendA)
    (q : String) (hist : Option String) (tools : List ToolDef) :
    (∀ (tmo : Option ToolManager) (r : AnthropicResponse),
      backend 0 = .ok r → (r.stop_reason == "tool_use") = false →
      (variantAGenerate sp backend q hist tools tmo).dispatches = [] ∧
      (variantAGenerate sp backend q hist tools tmo).requests.length = 1) ∧
    (∀ r : AnthropicResponse, backend 0 = .ok r →
      (variantAGenerate sp backend q hist tools none).dispatches = [] ∧
      (variantAGenerate sp backend q hist tools none).requests.length = 1) ∧
    (∀ (r : AnthropicResponse) (id name : String) (input : Kwargs)
        (rest : List ContentBlock), backend 0 = .ok r →
      r.content = ContentBlock.toolUse id name input :: rest →
      (variantAGenerate sp backend q hist tools none).text =
        anthropicErrorString (.other toolUseAttrError)) := by
  refine ⟨?_, ?_, ?_⟩
  · intro tmo r h0 hsr
    rw [genA_no_toolround sp backend q hist tools tmo r h0 (Or.inl hsr)]
    exact ⟨rfl, rfl⟩
  · intro r h0
    rw [genA_no_toolround sp backend q hist tools none r h0 (Or.inr rfl)]
    exact ⟨rfl, rfl⟩
  · intro r id name input rest h0 hc
    rw [genA_no_toolround sp backend q hist tools none r h0 (Or.inr rfl)]
    simp [firstChoiceText, hc, getText0]

/-- Claim C4: the classifier returns true exactly when a strong trigger
word occurs as a case-insensitive whole word, or an educational phrase and
a technical keyword both occur as substrings of the lowercased query; the
four example queries of the specification classify accordingly. -/
theorem variantB_classifier :
    (∀ q, should_search_courses q =
      (strongPatterns.any (fun w => containsWordCI q w) ||
        (educationalPatterns.any (fun p => strContains (pyLower q) p) &&
         techKeywords.any (fun k => strContains (pyLower q) k)))) ∧
    should_search_courses "What is MCP?" = true ∧
    should_search_courses "How to use the API?" = true ∧
    should_search_courses "Tell me a joke" = false ∧
    should_search_courses "What\x27s the weather?" = false := by
  refine ⟨?_, rfl, rfl, rfl, rfl⟩
  intro q
  by_cases h : strongPatterns.any (fun w => containsWordCI q w) <;>
    simp [should_search_courses, h]

/-- Claim C5: the extractor binds lesson_number to the matched integer
exactly when a lesson pattern matches and otherwise emits no
lesson_number key at all; course_name comes from the first matching
course phrase, stripped and cleaned of a trailing copula, with the known
identifiers as fallback; the specification example extracts
lesson_number 2 and a course name containing MCP. -/
theorem variantB_extractor :
    extract_search_parameters "What is covered in lesson 2 of the MCP course?" =
      [("query", .str "What is covered in lesson 2 of the MCP course?"),
       ("lesson_number", .int 2),
       ("course_name", .str "lesson 2 of the MCP")] ∧
    strContains "lesson 2 of the MCP" "MCP" = true ∧
    (∀ q n, findLessonNumber q = some n →
      (extract_search_parameters q).lookup "lesson_number" =
        some (.int n)) ∧
    (∀ q, findLessonNumber q = none →
      (extract_search_parameters q).lookup "lesson_number" = none) ∧
    (∀ q c, courseNameFromPatterns q = some c →
      (extract_search_parameters q).lookup "course_name" = some (.str c)) ∧
    (∀ q, courseNameFromPatterns q = none →
      (extract_search_parameters q).lookup "course_name" =
        (courseIdentifierSearch q).map PyVal.str) ∧
    String.mk (dropTrailingCopula (pyStripL " Python basics are ".toList)) =
      "Python basics" := by
  refine ⟨rfl, rfl, ?_, ?_, ?_, ?_, rfl⟩
  · intro q n h
    simp only [extract_search_parameters, h]
    cases hc : courseNameFromPatterns q with
    | some c => simp [List.lookup]
    | none =>
      cases hi : courseIdentifierSearch q with
      | some c => simp [List.lookup]
      | none => simp [List.lookup]
  · intro q h
    simp only [extract_search_parameters, h]
    cases hc : courseNameFromPatterns q with
    | some c => simp [List.lookup]
    | none =>
      cases hi : courseIdentifierSearch q with
      | some c => simp [List.lookup]
      | none => simp [List.lookup]
  · intro q c h
    simp only [extract_search_parameters, h]
    cases hl : findLessonNumber q with
    | some n => simp [List.lookup]
    | none => simp [List.lookup]
  · intro q h
    simp only [extract_search_parameters, h]
    cases hl : findLessonNumber q with
    | some n =>
      cases hi : courseIdentifierSearch q with
      | some c => simp [List.lookup]
      | none => simp [List.lookup]
    | none =>
      cases hi : courseIdentifierSearch q with
      | some c => simp [List.lookup]
      | none => simp [List.lookup]

/-- Claim C7: Variant B issues exactly one model call on every
invocation, returning the text of its first choice, or the
connection-error text when the call raises. -/
theorem variantB_single_model_call (c : String → String) (m : String)
    (backend : BackendB) (q : String) (hist : Option String)
    (tools : List ToolDef) (tmo : Option ToolManager) :
    (variantBGenerate c m backend q hist tools tmo).requests.length = 1 ∧
    (∀ t rest, backend 0 = .ok ⟨t :: rest⟩ →
      (variantBGenerate c m backend q hist tools tmo).text = t) ∧
    (∀ e, backend 0 = .error e →
      (variantBGenerate c m backend q hist tools tmo).text = c e.message) := by
  rw [genB_eq]
  refine ⟨rfl, ?_, ?_⟩
  · intro t rest h
    simp [chatText, h]
  · intro e h
    simp [chatText, h]

/-- Claim C8: once retrieval is triggered, the dispatch runs with exactly
what the extractor produced, and whatever the tool returned or raised,
Variant B still issues its one model call and returns the model text, so
the tool error text is never the final answer. -/
theorem variantB_tool_failure_fallback (c : String → String) (m : String)
    (backend : BackendB) (q : String) (hist : Option String)
    (tools : List ToolDef) (tm : ToolManager)
    (h : should_search_courses q = true) :
    (variantBGenerate c m backend q hist tools (some tm)).dispatches =
      [("search_course_content", extract_search_parameters q)] ∧
    (variantBGenerate c m backend q hist tools (some tm)).requests.length = 1 ∧
    (∀ t rest, backend 0 = .ok ⟨t :: rest⟩ →
      (variantBGenerate c m backend q hist tools (some tm)).text = t) := by
  rw [genB_eq]
  refine ⟨?_, rfl, ?_⟩
  · show (contextDispatch (some tm) q).2 = _
    simp only [contextDispatch, h]
  · intro t rest hb
    simp [chatText, hb]

/-- A tool manager whose dispatch raises. -/
def raisingTool : ToolManager := fun _ _ => .error (.other "boom")

/-- A chat backend whose one call returns a fixed model answer. -/
def okChatBackend : BackendB := fun _ => .ok ⟨["model answer"]⟩

theorem variantB_tool_failure_fallback_witness :
    (variantBGenerate (ollamaConnectErr "llama3.2") "llama3.2" okChatBackend
        "What is MCP?" none [] (some raisingTool)).dispatches =
      [("search_course_content",
        extract_search_parameters "What is MCP?")] ∧
    (variantBGenerate (ollamaConnectErr "llama3.2") "llama3.2" okChatBackend
        "What is MCP?" none [] (some raisingTool)).text = "model answer" :=
  ⟨(variantB_tool_failure_fallback (ollamaConnectErr "llama3.2") "llama3.2"
      okChatBackend "What is MCP?" none [] raisingTool rfl).1,
   (variantB_tool_failure_fallback (ollamaConnectErr "llama3.2") "llama3.2"
      okChatBackend "What is MCP?" none [] raisingTool rfl).2.2
     "model answer" [] rfl⟩

/-- Either no dispatch happens, or the one dispatch is the content-search
tool with the extracted parameters. -/
theorem contextDispatch_snd (tmo : Option ToolManager) (q : String) :
    (contextDispatch tmo q).2 = [] ∨
    (contextDispatch tmo q).2 =
      [("search_course_content", extract_search_parameters q)] := by
  rcases tmo with _ | tm
  · left
    rfl
  · cases hs : should_search_courses q with
    | false =>
      left
      simp [contextDispatch, hs]
    | true =>
      right
      simp only [contextDispatch, hs]

/-- Claim C10: Variant B is independent of its tools argument, which it
never reads, and the only tool it ever dispatches is
search_course_content. -/
theorem variantB_ignores_tools (c : String → String) (m : String)
    (backend : BackendB) (q : String) (hist : Option String)
    (tools1 tools2 : List ToolDef) (tmo : Option ToolManager) :
    variantBGenerate c m backend q hist tools1 tmo =
      variantBGenerate c m backend q hist tools2 tmo ∧
    ∀ d, d ∈ (variantBGenerate c m backend q hist tools1 tmo).dispatches →
      d.1 = "search_course_content" := by
  refine ⟨rfl, ?_⟩
  rw [genB_eq]
  intro d hd
  rcases contextDispatch_snd tmo q with h | h <;> rw [h] at hd
  · cases hd
  · simp at hd
    rw [hd]
